import Mathlib

/-!
Shallow embedding of the `langgraph-memento` agent core
(`src/memento/agent/graph.py`, `src/memento/agent/tools.py`), together with
theorems settling the specification claims about the router, the SQL tools,
the table-search tool, the graph state updates and the streaming emitter.

External collaborators (the relational database, the vector store and the
language model) are modelled as explicit parameters: a call that can raise a
Python exception is modelled with `Except`/`Option`, and the database state is
an abstract type that each execution may transform.
-/

namespace Memento

/-! ## Python string primitives used by the tools

`tools.py` uses `str.strip()`, `str.upper()`, `str.startswith` and
`str.rstrip(';')`.  They are modelled character-list-wise; `Char.isWhitespace`
covers the whitespace characters relevant to the queries at hand. -/

/-- Python `s.strip()`: remove leading and trailing whitespace. -/
def pyStrip (s : String) : String :=
  String.mk (((s.data.dropWhile Char.isWhitespace).reverse.dropWhile
    Char.isWhitespace).reverse)

/-- Python `s.upper()` (ASCII). -/
def pyUpper (s : String) : String :=
  String.mk (s.data.map Char.toUpper)

/-- Python `s.startswith(pre)`. -/
def pyStartswith (s pre : String) : Bool :=
  pre.data.isPrefixOf s.data

/-- Python `s.rstrip(';')`: remove every trailing semicolon. -/
def pyRstripSemis (s : String) : String :=
  String.mk ((s.data.reverse.dropWhile (fun c => c = ';')).reverse)

/-! ## Python return values of the SQL tools

`sql_checker` returns Python booleans or error strings; `sql_runner` returns
error strings or lists of dicts (each row rendered as an association list from
column name to cell, cells abstracted as strings). -/

/-- A Python value as returned by `sql_checker` / `sql_runner`. -/
inductive Py where
  | bool (b : Bool)
  | str (s : String)
  | list (l : List (List (String × String)))
  deriving DecidableEq

/-! ## The database collaborator

`PG()` (`src/memento/databases/pg.py`) builds an engine and connects; the
connection attempt is an external call that may raise, so a constructed
database handle is an `Except String Conn`: `Except.error e` is a raised
connection exception with message `e`.

A successful handle is the execution function itself: `exec q s` runs SQL text
`q` against abstract database state `s` and either raises
(`Except.error msg`, leaving the state unchanged — the enclosing
`with connection.begin()` block rolls the failed transaction back) or succeeds
with the post-commit state, the column names and the rows
(`with connection.begin()` commits when its body exits normally). -/

/-- A live database connection: SQL text and current abstract state to either
a raised error message or (new state, column names, rows). -/
def Conn (σ : Type) : Type :=
  String → σ → Except String (σ × List String × List (List String))

/-- `sql_checker` from `src/memento/agent/tools.py`.  The whole body runs
inside `try`: a raised `PG()` connection, and a raised probe execution, are
both caught and mapped to `False`.  Order of checks follows the source:
connect, blank check, SELECT-prefix check, then execute the query with
trailing semicolons stripped and ` LIMIT 1;` appended. -/
def sql_checker {σ : Type} (pg : Except String (Conn σ)) (query : String)
    (s : σ) : Py × σ :=
  match pg with
  | .error _ => (Py.bool false, s)
  | .ok exec =>
    if pyStrip query = "" then
      (Py.str "Error: Empty query", s)
    else if ¬ pyStartswith (pyUpper (pyStrip query)) "SELECT" then
      (Py.str "Error: Only SELECT queries are allowed", s)
    else
      match exec (pyRstripSemis query ++ " LIMIT 1;") s with
      | .ok (s2, _, _) => (Py.bool true, s2)
      | .error _ => (Py.bool false, s)

/-- `sql_runner` from `src/memento/agent/tools.py`.  Same gating as the
checker; on pass the query is executed with trailing semicolons replaced by a
single terminator (no LIMIT injection) and the rows are returned as
`dict(zip(columns, row))` in result order; any exception raised inside the
`try` block (connection or execution) becomes `[{"error": str(e)}]`. -/
def sql_runner {σ : Type} (pg : Except String (Conn σ)) (query : String)
    (s : σ) : Py × σ :=
  match pg with
  | .error e => (Py.list [[("error", e)]], s)
  | .ok exec =>
    if pyStrip query = "" then
      (Py.str "Error: Empty query", s)
    else if ¬ pyStartswith (pyUpper (pyStrip query)) "SELECT" then
      (Py.str "Error: Only SELECT queries are allowed", s)
    else
      match exec (pyRstripSemis query ++ ";") s with
      | .ok (s2, cols, rows) => (Py.list (rows.map (fun r => cols.zip r)), s2)
      | .error e => (Py.list [[("error", e)]], s)

/-- A trivial always-succeeding connection over `Nat` database states, used to
instantiate theorems at concrete inputs. -/
def okConn : Conn Nat :=
  fun _ s => .ok (s, ["c"], [["1"]])

/-- A connection whose every successful execution also bumps the database
state, modelling a SELECT whose evaluation has a persistent side effect
(e.g. a sequence-advancing function call). -/
def bumpConn : Conn Nat :=
  fun _ s => .ok (s + 1, ["nextval"], [["17"]])

/-- A connection on which every execution raises. -/
def failConn : Conn Nat :=
  fun _ _ => .error "relation does not exist"

example : (sql_checker (Except.ok okConn) "SELECT 1" 0).1 = Py.bool true := by
  decide

example : (sql_checker (Except.ok okConn) "" 0).1 = Py.str "Error: Empty query" := by
  decide

example : (sql_checker (Except.ok okConn) "DROP TABLE x" 0).1 =
    Py.str "Error: Only SELECT queries are allowed" := by decide

example : (sql_runner (Except.ok okConn) "SELECT 1" 0).1 =
    Py.list [[("c", "1")]] := by decide

example : (sql_checker (Except.ok bumpConn) "SELECT nextval(7)" 0).2 = 1 := by
  decide

/-! ## Messages and the graph (`src/memento/agent/graph.py`)

A LangChain message carries a role, textual content, a list of tool-call
requests (empty for non-assistant messages) and, for tool-response messages,
the identifier of the request it answers. -/

/-- One tool-call request emitted by the model: tool name, rendered argument
payload and the identifier scoping it to its assistant message. -/
structure ToolCall where
  name : String
  args : String
  id : String
  deriving DecidableEq

/-- Message roles. -/
inductive Role where
  | system
  | user
  | assistant
  | tool
  deriving DecidableEq

/-- One conversation message. -/
structure Message where
  role : Role
  content : String
  tool_calls : List ToolCall := []
  tool_call_id : Option String := none
  deriving DecidableEq

/-- The graph nodes a routing decision can select, plus the terminal `END`
sentinel of LangGraph. -/
inductive Node where
  | table_search_node
  | sql_check_node
  | sql_runner_node
  | END
  deriving DecidableEq

/-- `chatbot_router` from `src/memento/agent/graph.py`, as a function of the
most recent message: no tool calls means `END`; otherwise the first tool-call
request is inspected and its name dispatched over the three known tools, any
other name falling through to `END`. -/
def chatbot_router (last_message : Message) : Node :=
  match last_message.tool_calls with
  | [] => Node.END
  | tool_call :: _ =>
    if tool_call.name = "table_searcher" then Node.table_search_node
    else if tool_call.name = "sql_checker" then Node.sql_check_node
    else if tool_call.name = "sql_runner" then Node.sql_runner_node
    else Node.END

/-- `MementoState` from `src/memento/agent/graph.py`: the message sequence
plus the auxiliary `chart_json` artifact, which defaults to `""`. -/
structure MementoState where
  messages : List Message := []
  chart_json : String := ""
  deriving DecidableEq

/-- `memento_node` from `src/memento/agent/graph.py` with the language-model
response (an external call) passed explicitly: the node appends the response
to the message sequence and touches nothing else. -/
def memento_node (response : Message) (state : MementoState) : MementoState :=
  { state with messages := state.messages ++ [response] }

/-- Modelled from the spec: the tool-execution wrapper (`ToolNode`) around
each tool is LangGraph library code absent from the repository.  Per the
spec, "exactly the first tool-call request in the list is acted upon per
graph step" and the Tool Execution Step "appends a tool-response Message
(role=tool, correlating identifier = the request's identifier)"; the tool
adapter itself is the explicit `invoke` parameter.  Only `messages` is
updated. -/
def toolExecStep (invoke : ToolCall → String) (state : MementoState) :
    MementoState :=
  match state.messages.getLast? with
  | none => state
  | some last =>
    match last.tool_calls with
    | [] => state
    | tc :: _ =>
      { state with
        messages := state.messages ++
          [{ role := Role.tool, content := invoke tc,
             tool_call_id := some tc.id }] }

/-- One graph step: a Decision Step (appending the model response) or a Tool
Execution Step (appending one tool-response message). -/
inductive GStep where
  | decide (response : Message)
  | tool (invoke : ToolCall → String)

/-- Apply one graph step to the state. -/
def applyStep : GStep → MementoState → MementoState
  | GStep.decide response, st => memento_node response st
  | GStep.tool invoke, st => toolExecStep invoke st

/-- Run a sequence of graph steps. -/
def runSteps : List GStep → MementoState → MementoState
  | [], st => st
  | step :: rest, st => runSteps rest (applyStep step st)

/-! ## The table-search tool (`table_searcher` in `src/memento/agent/tools.py`)

The similarity-search backend is external.  `table_searcher` first constructs
`Vector()` — on the line *before* its `try` block — and then, inside the
`try`, asks the store for the top five documents and simplifies each document
that carries `whole_table` metadata. -/

/-- Column metadata as read by `table_searcher` via `col.get(...)`: a key that
may be absent is an `Option`, and `business_attribute` defaults to `[]`. -/
structure ColumnMeta where
  col_name : Option String := none
  col_type : Option String := none
  column_display_name : Option String := none
  col_description : Option String := none
  business_attribute : List String := []
  deriving DecidableEq

/-- Table metadata as read by `table_searcher` via `whole_table.get(...)`;
`is_dimension` defaults to `False`, `hierarchy` and `columns` to `[]`. -/
structure TableMeta where
  is_dimension : Bool := false
  table_name : Option String := none
  table_desc : Option String := none
  table_domain : Option String := none
  table_display_name : Option String := none
  columns : List ColumnMeta := []
  hierarchy : List String := []
  deriving DecidableEq

/-- One document returned by the similarity search.  `whole_table = none`
models `doc.metadata.get("whole_table", {})` being absent or empty (Python
tests `if not whole_table`). -/
structure Doc where
  whole_table : Option TableMeta := none
  deriving DecidableEq

/-- The simplified per-column dict built by `table_searcher`. -/
structure SimplifiedColumn where
  col_name : Option String
  col_type : Option String
  column_display_name : Option String
  col_description : Option String
  business_attribute : List String
  deriving DecidableEq

/-- The simplified per-table dict built by `table_searcher`. -/
structure SimplifiedTable where
  is_dimension : Bool
  table_name : Option String
  table_desc : Option String
  table_domain : Option String
  table_display_name : Option String
  columns : List SimplifiedColumn
  hierarchy : List String
  deriving DecidableEq

/-- The per-column projection performed inside the loop of `table_searcher`. -/
def simplifyColumn (c : ColumnMeta) : SimplifiedColumn :=
  { col_name := c.col_name
    col_type := c.col_type
    column_display_name := c.column_display_name
    col_description := c.col_description
    business_attribute := c.business_attribute }

/-- The per-document projection performed by `table_searcher` on a document
carrying table metadata. -/
def simplifyTable (t : TableMeta) : SimplifiedTable :=
  { is_dimension := t.is_dimension
    table_name := t.table_name
    table_desc := t.table_desc
    table_domain := t.table_domain
    table_display_name := t.table_display_name
    columns := t.columns.map simplifyColumn
    hierarchy := t.hierarchy }

/-- The Python value `table_searcher` produces when it returns normally:
either the simplified table list or the single-element error list
`[{"error": str(e)}]` built by its `except` clause. -/
inductive SearchReturn where
  | tables (l : List SimplifiedTable)
  | errList (e : String)
  deriving DecidableEq

/-- The similarity-search store: a query and a `top_k` bound to either the
raised-exception message or the ordered result documents. -/
def VectorStore : Type :=
  String → Nat → Except String (List Doc)

/-- `table_searcher` from `src/memento/agent/tools.py`.  `vinit` is the
outcome of the `Vector()` construction (engine and collection setup against
the database, an external call that may raise): it happens before the `try`
block, so its exception propagates to the caller — the outer
`Except.error`.  Inside the `try`, the store is queried with `top_k = 5`;
each document lacking `whole_table` metadata is skipped and the rest are
simplified in order; a raised search is caught and returned as
`[{"error": str(e)}]`. -/
def table_searcher (vinit : Except String VectorStore) (query : String) :
    Except String SearchReturn :=
  match vinit with
  | .error e => .error e
  | .ok store =>
    .ok (match store query 5 with
      | .ok results =>
        SearchReturn.tables
          (results.filterMap (fun doc => doc.whole_table.map simplifyTable))
      | .error e => SearchReturn.errList e)

/-! ## The streaming emitter (`Agent.stream` in `src/memento/agent/graph.py`)

The underlying LangGraph stream supplies message chunks; the emitter loop
yields strings.  A yielded string is tagged here by the code path that
produced it, so that the ordering law over fragment kinds is expressible:
`sep` is the `"\n\n"` separator, `marker` the `"< TOOL CALL: ... >"` line,
`args` a tool-call-argument fragment, `text` a content fragment. -/

/-- One emitted fragment, tagged by provenance. -/
inductive Frag where
  | sep
  | marker (name args : String)
  | args (a : String)
  | text (s : String)
  deriving DecidableEq

/-- The first element of `message_chunk.tool_call_chunks`, with
`tool_chunk.get("name", "")` and `tool_chunk.get("args", "")` defaults. -/
structure ToolChunk where
  name : String := ""
  args : String := ""
  deriving DecidableEq

/-- One chunk of the message stream.  `isAI` is the
`isinstance(message_chunk, AIMessageChunk)` test; `finish_tool_calls` holds
when `response_metadata` is non-empty and its `finish_reason` is
`"tool_calls"`. -/
structure StreamChunk where
  isAI : Bool := true
  finish_tool_calls : Bool := false
  tool_call_chunks : List ToolChunk := []
  content : String := ""
  deriving DecidableEq

/-- One iteration of the loop body of `Agent.stream`.  The Python local
`tool_call_str` survives across iterations and starts unbound: it is the
`Option Frag` state, and executing `yield tool_call_str` while it is unbound
raises `NameError` — the `Bool` in the result records that the generator
aborted there.  Returns (new state, fragments yielded this iteration,
aborted). -/
def streamStep (st : Option Frag) (c : StreamChunk) :
    Option Frag × List Frag × Bool :=
  if ¬ c.isAI then (st, [], false)
  else
    let out0 : List Frag := if c.finish_tool_calls then [Frag.sep] else []
    match c.tool_call_chunks with
    | [] => (st, out0 ++ [Frag.text c.content], false)
    | tc :: _ =>
      let st1 : Option Frag :=
        if tc.name ≠ "" then some (Frag.marker tc.name tc.args) else st
      match st1 with
      | none => (none, out0, true)
      | some f =>
        if tc.args ≠ "" then
          (some (Frag.args tc.args), out0 ++ [f, Frag.args tc.args], false)
        else
          (some f, out0 ++ [f, f], false)

/-- The fragment sequence `Agent.stream` yields on a given chunk sequence,
starting from state `st`; emission stops where the loop raises. -/
def streamEmit : List StreamChunk → Option Frag → List Frag
  | [], _ => []
  | c :: rest, st =>
    match streamStep st c with
    | (st2, out, aborted) => if aborted then out else out ++ streamEmit rest st2

/-- `true` iff no `args` fragment occurs before the first `marker` fragment. -/
def noArgsBeforeMarker : List Frag → Bool
  | [] => true
  | Frag.marker _ _ :: _ => true
  | Frag.args _ :: _ => false
  | _ :: rest => noArgsBeforeMarker rest

/-! ## Further concrete instances used to instantiate theorems -/

/-- A connection delivering one row with a single column `x`. -/
def xConn : Conn Nat :=
  fun _ s => .ok (s, ["x"], [["1"]])

/-- If the stripped-and-uppercased query starts with `SELECT`, the stripped
query is not blank. -/
theorem strip_ne_blank_of_startswith {q : String}
    (h : pyStartswith (pyUpper (pyStrip q)) "SELECT" = true) :
    ¬ pyStrip q = "" := by
  intro hq
  rw [hq] at h
  exact absurd h (by decide)

/-! ## Claim C1 — the router -/

/-- Claim C1: the Router is a total, deterministic function of the most
recent assistant message implementing the decision table — no tool-call
requests means the terminal step; a first request named `table_searcher`,
`sql_checker` or `sql_runner` selects that tool's node; any other first name
means the terminal step.  `chatbot_router` is a total Lean function, so it
never raises, and repeated evaluation is reflexivity. -/
theorem router_decision_table (m : Message) :
    (m.tool_calls = [] → chatbot_router m = Node.END) ∧
    (∀ tc rest, m.tool_calls = tc :: rest →
      chatbot_router m =
        if tc.name = "table_searcher" then Node.table_search_node
        else if tc.name = "sql_checker" then Node.sql_check_node
        else if tc.name = "sql_runner" then Node.sql_runner_node
        else Node.END) ∧
    chatbot_router m = chatbot_router m := by
  refine ⟨?_, ?_, rfl⟩
  · intro h
    simp [chatbot_router, h]
  · intro tc rest h
    simp [chatbot_router, h]

/-- A concrete `sql_runner` tool-call request. -/
def runnerCall : ToolCall :=
  { name := "sql_runner", args := "", id := "1" }

/-- A concrete assistant message requesting `sql_runner`. -/
def runnerMsg : Message :=
  { role := Role.assistant
    content := ""
    tool_calls := [runnerCall] }

/-- Claim C1 witness: the decision table evaluated on a concrete assistant
message requesting `sql_runner`. -/
theorem router_decision_table_witness :
    chatbot_router runnerMsg = Node.sql_runner_node := by
  have h := (router_decision_table runnerMsg).2.1 runnerCall [] rfl
  rw [h]
  decide

/-! ## Claim C2 — `sql_checker` -/

/-- Claim C2 counterexample: the claim says a blank input always yields the
empty-query indication, but the connection is constructed before the blank
check, inside the same `try`; when the connection attempt raises, the checker
returns plain `False` with no empty-query indication, for the blank input
`""`. -/
theorem sql_checker_blank_cex :
    (sql_checker (Except.error "connection refused" : Except String (Conn Nat))
      "" 0).1 = Py.bool false ∧
    ¬ (sql_checker (Except.error "connection refused" : Except String (Conn Nat))
      "" 0).1 = Py.str "Error: Empty query" := by
  constructor <;> decide

/-- Claim C2 (amended): provided the database connection is constructed
successfully, `sql_checker` returns the empty-query error string on blank
input and the only-SELECT error string when the stripped, upper-cased input
does not start with `SELECT`; otherwise it returns `True` exactly when the
probe (trailing semicolons stripped, ` LIMIT 1;` appended) succeeds and
`False` when it raises.  When constructing the connection raises, every input
yields plain `False`.  No case propagates an exception. -/
theorem sql_checker_spec {σ : Type} (exec : Conn σ) (q : String) (s : σ) :
    (pyStrip q = "" →
      sql_checker (Except.ok exec) q s = (Py.str "Error: Empty query", s)) ∧
    (¬ pyStrip q = "" → pyStartswith (pyUpper (pyStrip q)) "SELECT" = false →
      sql_checker (Except.ok exec) q s =
        (Py.str "Error: Only SELECT queries are allowed", s)) ∧
    (pyStartswith (pyUpper (pyStrip q)) "SELECT" = true →
      (∀ s2 cols rows,
        exec (pyRstripSemis q ++ " LIMIT 1;") s = Except.ok (s2, cols, rows) →
        sql_checker (Except.ok exec) q s = (Py.bool true, s2)) ∧
      (∀ e, exec (pyRstripSemis q ++ " LIMIT 1;") s = Except.error e →
        sql_checker (Except.ok exec) q s = (Py.bool false, s))) ∧
    (∀ e, sql_checker (Except.error e : Except String (Conn σ)) q s =
      (Py.bool false, s)) := by
  refine ⟨?_, ?_, ?_, fun _ => rfl⟩
  · intro h
    simp [sql_checker, h]
  · intro h1 h2
    simp [sql_checker, h1, h2]
  · intro hsw
    have hne := strip_ne_blank_of_startswith hsw
    constructor
    · intro s2 cols rows hexec
      simp [sql_checker, hne, hsw, hexec]
    · intro e hexec
      simp [sql_checker, hne, hsw, hexec]

/-- Claim C2 witness: the amended decision table applied at `"SELECT 1"` over
a live connection. -/
theorem sql_checker_spec_witness :
    sql_checker (Except.ok okConn) "SELECT 1" 0 = (Py.bool true, 0) :=
  ((sql_checker_spec okConn "SELECT 1" 0).2.2.1 (by decide)).1 0 ["c"] [["1"]]
    rfl

/-! ## Claim C3 — `sql_runner` -/

/-- Claim C3 counterexample: the claim says any failure yields a
single-element list containing an error descriptor, but a gate rejection
returns a bare error string — here, for `"DELETE FROM t"`, the string
`"Error: Only SELECT queries are allowed"`, which is not a list at all. -/
theorem sql_runner_gate_string_cex :
    (sql_runner (Except.ok okConn) "DELETE FROM t" 0).1 =
      Py.str "Error: Only SELECT queries are allowed" ∧
    ¬ ∃ l, (sql_runner (Except.ok okConn) "DELETE FROM t" 0).1 = Py.list l := by
  constructor
  · decide
  · rintro ⟨l, hl⟩
    rw [show (sql_runner (Except.ok okConn) "DELETE FROM t" 0).1 =
      Py.str "Error: Only SELECT queries are allowed" from by decide] at hl
    exact Py.noConfusion hl

/-- Claim C3 (amended): `sql_runner` applies the same blank-input and
SELECT-only gating as the checker, returning the bare gate error string (not
a list) on rejection; on pass it executes the query with trailing semicolons
normalized to a single terminator — no LIMIT injection — inside a
transaction and returns the rows as column-name-to-value mappings in result
order; a raised connection or execution becomes the single-element list
`[{"error": str(e)}]`; nothing propagates to the caller. -/
theorem sql_runner_spec {σ : Type} (exec : Conn σ) (q : String) (s : σ) :
    (pyStrip q = "" →
      sql_runner (Except.ok exec) q s = (Py.str "Error: Empty query", s)) ∧
    (¬ pyStrip q = "" → pyStartswith (pyUpper (pyStrip q)) "SELECT" = false →
      sql_runner (Except.ok exec) q s =
        (Py.str "Error: Only SELECT queries are allowed", s)) ∧
    (pyStartswith (pyUpper (pyStrip q)) "SELECT" = true →
      (∀ s2 cols rows,
        exec (pyRstripSemis q ++ ";") s = Except.ok (s2, cols, rows) →
        sql_runner (Except.ok exec) q s =
          (Py.list (rows.map (fun r => cols.zip r)), s2)) ∧
      (∀ e, exec (pyRstripSemis q ++ ";") s = Except.error e →
        sql_runner (Except.ok exec) q s = (Py.list [[("error", e)]], s))) ∧
    (∀ e, sql_runner (Except.error e : Except String (Conn σ)) q s =
      (Py.list [[("error", e)]], s)) := by
  refine ⟨?_, ?_, ?_, fun _ => rfl⟩
  · intro h
    simp [sql_runner, h]
  · intro h1 h2
    simp [sql_runner, h1, h2]
  · intro hsw
    have hne := strip_ne_blank_of_startswith hsw
    constructor
    · intro s2 cols rows hexec
      simp [sql_runner, hne, hsw, hexec]
    · intro e hexec
      simp [sql_runner, hne, hsw, hexec]

/-- Claim C3 witness: `"SELECT 1 as x"` over a connection returning one row
yields `[{"x": "1"}]`. -/
theorem sql_runner_spec_witness :
    sql_runner (Except.ok xConn) "SELECT 1 as x" 0 =
      (Py.list [[("x", "1")]], 0) := by
  have h := ((sql_runner_spec xConn "SELECT 1 as x" 0).2.2.1 (by decide)).1
    0 ["x"] [["1"]] rfl
  rw [h]
  rfl

/-! ## Claim C4 — only the first tool-call request matters -/

/-- The tool-response message appended for request `tc` with payload `out`. -/
def toolResponse (tc : ToolCall) (out : String) : Message :=
  { role := Role.tool
    content := out
    tool_call_id := some tc.id }

/-- Claim C4: for an assistant message with a non-empty tool-call list,
exactly the first request determines the step — routing is a function of the
first request alone, and the tool-execution step appends exactly one
tool-response message, for the first request, applying the tool adapter only
to it; the remaining requests are never dispatched. -/
theorem first_tool_call_only (m1 m2 : Message) (invoke : ToolCall → String)
    (st : MementoState) (last : Message) (tc : ToolCall)
    (rest : List ToolCall) :
    (m1.tool_calls.head? = m2.tool_calls.head? →
      chatbot_router m1 = chatbot_router m2) ∧
    (st.messages.getLast? = some last → last.tool_calls = tc :: rest →
      (toolExecStep invoke st).messages =
        st.messages ++ [toolResponse tc (invoke tc)]) := by
  constructor
  · intro h
    cases h1 : m1.tool_calls with
    | nil =>
      cases h2 : m2.tool_calls with
      | nil => simp [chatbot_router, h1, h2]
      | cons b bs => rw [h1, h2] at h; exact absurd h (by simp)
    | cons a as =>
      cases h2 : m2.tool_calls with
      | nil => rw [h1, h2] at h; exact absurd h (by simp)
      | cons b bs =>
        rw [h1, h2] at h
        have hab : a = b := by simpa using h
        simp [chatbot_router, h1, h2, hab]
  · intro hlast htc
    simp [toolExecStep, hlast, htc, toolResponse]

/-- A concrete `sql_checker` tool-call request. -/
def checkerCall : ToolCall :=
  { name := "sql_checker", args := "q", id := "7" }

/-- An assistant message carrying two simultaneous tool-call requests. -/
def multiMsg : Message :=
  { role := Role.assistant
    content := ""
    tool_calls := [checkerCall, runnerCall] }

/-- An assistant message carrying only the first of `multiMsg`'s requests. -/
def soloMsg : Message :=
  { role := Role.assistant
    content := ""
    tool_calls := [checkerCall] }

/-- A state whose last message is `multiMsg`. -/
def multiState : MementoState :=
  { messages := [multiMsg], chart_json := "" }

/-- Claim C4 witness: a message with two simultaneous requests routes exactly
as the message with only the first, and the execution step appends one
tool-response message for the first request. -/
theorem first_tool_call_only_witness :
    chatbot_router multiMsg = chatbot_router soloMsg ∧
    (toolExecStep (fun tc => tc.name) multiState).messages =
      multiState.messages ++ [toolResponse checkerCall "sql_checker"] := by
  constructor
  · exact (first_tool_call_only multiMsg soloMsg (fun tc => tc.name)
      multiState multiMsg checkerCall [runnerCall]).1 rfl
  · exact (first_tool_call_only multiMsg soloMsg (fun tc => tc.name)
      multiState multiMsg checkerCall [runnerCall]).2 rfl rfl

/-! ## Claim C5 — the checker probe and the transaction -/

/-- Claim C5 counterexample: the probe transaction is committed, not rolled
back, when the probe succeeds — `with connection.begin()` commits on normal
exit — so a passing SELECT whose evaluation has a side effect (modelled by
`bumpConn`, e.g. advancing a sequence) leaves the database state changed. -/
theorem sql_checker_probe_commits_cex :
    (sql_checker (Except.ok bumpConn) "SELECT nextval(7)" 0).1 = Py.bool true ∧
    ¬ (sql_checker (Except.ok bumpConn) "SELECT nextval(7)" 0).2 = 0 := by
  constructor <;> decide

/-- Claim C5 (amended): the LIMIT-1 probe runs inside a transaction that is
rolled back when the probe raises — a failing probe has zero persistent
effect, as does a rejected input, which never reaches the database — but the
transaction is committed when the probe succeeds, so a successful probe
persists exactly its own effects. -/
theorem sql_checker_transaction {σ : Type} (exec : Conn σ) (q : String)
    (s : σ) :
    (∀ e, exec (pyRstripSemis q ++ " LIMIT 1;") s = Except.error e →
      (sql_checker (Except.ok exec) q s).2 = s) ∧
    (pyStartswith (pyUpper (pyStrip q)) "SELECT" = true →
      ∀ s2 cols rows,
        exec (pyRstripSemis q ++ " LIMIT 1;") s = Except.ok (s2, cols, rows) →
        (sql_checker (Except.ok exec) q s).2 = s2) ∧
    (pyStartswith (pyUpper (pyStrip q)) "SELECT" = false →
      (sql_checker (Except.ok exec) q s).2 = s) := by
  refine ⟨?_, ?_, ?_⟩
  · intro e hexec
    by_cases hb : pyStrip q = ""
    · simp [sql_checker, hb]
    · cases hsw : pyStartswith (pyUpper (pyStrip q)) "SELECT" with
      | false => simp [sql_checker, hb, hsw]
      | true => simp [sql_checker, hb, hsw, hexec]
  · intro hsw s2 cols rows hexec
    have hne := strip_ne_blank_of_startswith hsw
    simp [sql_checker, hne, hsw, hexec]
  · intro hsw
    by_cases hb : pyStrip q = ""
    · simp [sql_checker, hb]
    · simp [sql_checker, hb, hsw]

/-- Claim C5 witness: a failing probe leaves the database state unchanged. -/
theorem sql_checker_transaction_witness :
    (sql_checker (Except.ok failConn) "SELECT 1" 0).2 = 0 :=
  (sql_checker_transaction failConn "SELECT 1" 0).1 "relation does not exist"
    rfl

/-! ## Claim C6 — the message sequence is append-only -/

/-- Each graph step can only append to the message sequence. -/
theorem applyStep_messages_grow (step : GStep) (st : MementoState) :
    st.messages <+: (applyStep step st).messages := by
  cases step with
  | decide response => exact ⟨[response], rfl⟩
  | tool invoke =>
    simp only [applyStep, toolExecStep]
    split
    · exact List.prefix_refl _
    · split
      · exact List.prefix_refl _
      · exact ⟨_, rfl⟩

/-- Claim C6: over any sequence of Decision and Tool Execution Steps, the
message sequence is append-only — the starting sequence is a prefix of the
resulting sequence, and every previously appended entry (role, content and
identifiers included) is unchanged at its position. -/
theorem messages_append_only (steps : List GStep) (st : MementoState) :
    st.messages <+: (runSteps steps st).messages ∧
    ∀ i, i < st.messages.length →
      (runSteps steps st).messages[i]? = st.messages[i]? := by
  have hpre : ∀ (steps : List GStep) (st : MementoState),
      st.messages <+: (runSteps steps st).messages := by
    intro steps
    induction steps with
    | nil => intro st; exact List.prefix_refl _
    | cons step rest ih =>
      intro st
      exact (applyStep_messages_grow step st).trans (ih (applyStep step st))
  refine ⟨hpre steps st, ?_⟩
  intro i hi
  obtain ⟨t, ht⟩ := hpre steps st
  rw [← ht, List.getElem?_append_left hi]

/-- A concrete user message. -/
def userMsg : Message :=
  { role := Role.user, content := "hi" }

/-- A state already holding one message. -/
def oneMsgState : MementoState :=
  { messages := [userMsg], chart_json := "" }

/-- Claim C6 witness: after a Decision Step appends a response, the entry at
position 0 is unchanged. -/
theorem messages_append_only_witness :
    (runSteps [GStep.decide runnerMsg] oneMsgState).messages[0]? =
      oneMsgState.messages[0]? :=
  (messages_append_only [GStep.decide runnerMsg] oneMsgState).2 0 (by decide)

/-! ## Claim C7 — `table_searcher` -/

/-- Claim C7 counterexample: `Vector()` is constructed on the line before the
`try` block of `table_searcher`, so a failure raised while building the
vector-store client propagates to the caller instead of being returned as a
single-element error list. -/
theorem table_searcher_init_raises_cex :
    table_searcher (Except.error "connection refused") "revenue" =
      Except.error "connection refused" ∧
    ¬ ∃ r, table_searcher (Except.error "connection refused") "revenue" =
      Except.ok r := by
  constructor
  · rfl
  · rintro ⟨r, hr⟩
    rw [show table_searcher (Except.error "connection refused") "revenue" =
      Except.error "connection refused" from rfl] at hr
    exact Except.noConfusion hr

/-- Claim C7 (amended): when the vector-store client is constructed
successfully, `table_searcher` requests the top five results; on a successful
search it returns one simplified descriptor (name, description, domain,
display name, column list, hierarchy) per result carrying table metadata, in
the input result order, omitting every result lacking table metadata, and on
a raised search it returns the single-element error list; a failure raised
while constructing the client, before the guarded region, propagates to the
caller instead. -/
theorem table_searcher_spec (store : VectorStore) (query : String) :
    (∀ docs, store query 5 = Except.ok docs →
      table_searcher (Except.ok store) query =
        Except.ok (SearchReturn.tables
          (docs.filterMap (fun d => d.whole_table.map simplifyTable)))) ∧
    (∀ e, store query 5 = Except.error e →
      table_searcher (Except.ok store) query =
        Except.ok (SearchReturn.errList e)) ∧
    (∀ e, table_searcher (Except.error e) query = Except.error e) := by
  refine ⟨?_, ?_, fun _ => rfl⟩
  · intro docs h
    simp [table_searcher, h]
  · intro e h
    simp [table_searcher, h]

/-- A concrete table descriptor. -/
def tblW : TableMeta :=
  { table_name := some "revenue_fact"
    table_desc := some "revenue facts"
    columns := [{ col_name := some "amount" }] }

/-- A store returning one document without table metadata and one with. -/
def storeW : VectorStore :=
  fun _ _ => .ok [{ whole_table := none }, { whole_table := some tblW }]

/-- Claim C7 witness: the document without table metadata is omitted and the
remaining document is simplified, in order. -/
theorem table_searcher_spec_witness :
    table_searcher (Except.ok storeW) "revenue" =
      Except.ok (SearchReturn.tables [simplifyTable tblW]) :=
  ((table_searcher_spec storeW "revenue").1
    [{ whole_table := none }, { whole_table := some tblW }] rfl).trans rfl

/-! ## Claim C8 — streaming ordering law -/

/-- Claim C8: for every chunk sequence, the emitter never yields a
tool-call-argument fragment before a tool-name marker fragment has been
yielded: before the first marker no argument fragment occurs (a tool chunk
arriving while the marker variable is still unbound aborts the generator
instead of yielding anything further). -/
theorem stream_marker_before_args (chunks : List StreamChunk) :
    noArgsBeforeMarker (streamEmit chunks none) = true := by
  induction chunks with
  | nil => rfl
  | cons c rest ih =>
    rcases c with ⟨isAI, ftc, tcc, content⟩
    cases isAI with
    | false => simpa [streamEmit, streamStep] using ih
    | true =>
      cases tcc with
      | nil =>
        cases ftc <;>
          simpa [streamEmit, streamStep, noArgsBeforeMarker] using ih
      | cons tc tcs =>
        by_cases hn : tc.name = ""
        · cases ftc <;>
            simp [streamEmit, streamStep, hn, noArgsBeforeMarker]
        · by_cases ha : tc.args = ""
          · cases ftc <;>
              simp [streamEmit, streamStep, hn, ha, noArgsBeforeMarker]
          · cases ftc <;>
              simp [streamEmit, streamStep, hn, ha, noArgsBeforeMarker]

/-! ## Claim C9 — the gate inspects only the prefix -/

/-- Claim C9: the SELECT-only safety gate shared by `sql_checker` and
`sql_runner` inspects only the prefix of the query: over a live connection, a
gate rejection (either gate error value) occurs exactly when the stripped,
upper-cased query does not start with `SELECT` — so every SELECT-prefixed
string passes, multi-statement strings such as `"SELECT 1; DELETE FROM t"`
included, and every other non-blank string is rejected. -/
theorem select_gate_prefix_only {σ : Type} (exec : Conn σ) (q : String)
    (s : σ) :
    (((sql_checker (Except.ok exec) q s).1 = Py.str "Error: Empty query" ∨
      (sql_checker (Except.ok exec) q s).1 =
        Py.str "Error: Only SELECT queries are allowed") ↔
      pyStartswith (pyUpper (pyStrip q)) "SELECT" = false) ∧
    (((sql_runner (Except.ok exec) q s).1 = Py.str "Error: Empty query" ∨
      (sql_runner (Except.ok exec) q s).1 =
        Py.str "Error: Only SELECT queries are allowed") ↔
      pyStartswith (pyUpper (pyStrip q)) "SELECT" = false) := by
  by_cases hb : pyStrip q = ""
  · have hsw : pyStartswith (pyUpper "") "SELECT" = false := by decide
    simp [sql_checker, sql_runner, hb, hsw]
  · cases hsw : pyStartswith (pyUpper (pyStrip q)) "SELECT" with
    | false => simp [sql_checker, sql_runner, hb, hsw]
    | true =>
      cases hex1 : exec (pyRstripSemis q ++ " LIMIT 1;") s with
      | ok v =>
        cases hex2 : exec (pyRstripSemis q ++ ";") s with
        | ok w =>
          simp [sql_checker, sql_runner, hb, hsw, hex1, hex2]
        | error e =>
          simp [sql_checker, sql_runner, hb, hsw, hex1, hex2]
      | error e =>
        cases hex2 : exec (pyRstripSemis q ++ ";") s with
        | ok w =>
          simp [sql_checker, sql_runner, hb, hsw, hex1, hex2]
        | error f =>
          simp [sql_checker, sql_runner, hb, hsw, hex1, hex2]

/-- Claim C9 witness: the multi-statement string
`"SELECT 1; DELETE FROM t"` is not rejected by the checker gate. -/
theorem select_gate_prefix_only_witness :
    ¬ ((sql_checker (Except.ok okConn) "SELECT 1; DELETE FROM t" 0).1 =
        Py.str "Error: Empty query" ∨
      (sql_checker (Except.ok okConn) "SELECT 1; DELETE FROM t" 0).1 =
        Py.str "Error: Only SELECT queries are allowed") :=
  fun h => absurd
    ((select_gate_prefix_only okConn "SELECT 1; DELETE FROM t" 0).1.mp h)
    (by decide)

/-! ## Claim C10 — `chart_json` is never written -/

/-- A single graph step leaves `chart_json` untouched. -/
theorem applyStep_chart_json (step : GStep) (st : MementoState) :
    (applyStep step st).chart_json = st.chart_json := by
  cases step with
  | decide response => rfl
  | tool invoke =>
    simp only [applyStep, toolExecStep]
    split
    · rfl
    · split <;> rfl

/-- Claim C10: no node of the graph writes `chart_json`: every step preserves
it, so across any run it keeps its value, and starting from the initial state
(whose `chart_json` defaults to `""`) it stays `""` after every step. -/
theorem chart_json_never_written (steps : List GStep) (st : MementoState) :
    (runSteps steps st).chart_json = st.chart_json ∧
    (runSteps steps { messages := [], chart_json := "" }).chart_json = "" := by
  have h : ∀ (steps : List GStep) (st : MementoState),
      (runSteps steps st).chart_json = st.chart_json := by
    intro steps
    induction steps with
    | nil => intro st; rfl
    | cons step rest ih =>
      intro st
      simp only [runSteps]
      rw [ih (applyStep step st), applyStep_chart_json]
  exact ⟨h steps st, h steps _⟩

end Memento
